import Mathlib

/-
Verification of the chat-bot backend (src/main.py) against its specification.

The embedding models:
  * JSON values (`Json`), with numeric literals modelled as integers;
  * Python's `json.dumps` with its default separators and `ensure_ascii`;
  * the in-memory cache `chatbot_db` and `load_data_into_cache` (main.py 27-45),
    with the filesystem outcome made explicit (`FileReadResult`) and the
    caught/uncaught-exception behaviour made explicit (`LoadStatus`);
  * `get_ai_response` (main.py 69-106), with the outbound HTTP call's outcome
    made explicit (`CallOutcome`); the function returns the request it sends
    (headers and payload) together with the Python value it returns;
  * the `/chat` endpoint `handle_chat_message` (main.py 109-112), including the
    pydantic validation of `BotReply(reply=...)` which requires a string.
-/

/-- A JSON value, as produced by Python's `json.load`.  Objects are association
lists; `json.load` returns `dict`s, whose keys are unique, so lookup order is
immaterial.  Numeric literals are modelled as integers. -/
inductive Json where
  | null
  | bool (b : Bool)
  | num (n : Int)
  | str (s : String)
  | arr (xs : List Json)
  | obj (kvs : List (String × Json))

/-- Four lowercase hex digits, as in Python's `\uXXXX` escapes. -/
def hex4 (n : Nat) : String :=
  String.mk [Nat.digitChar (n / 4096 % 16), Nat.digitChar (n / 256 % 16),
             Nat.digitChar (n / 16 % 16), Nat.digitChar (n % 16)]

/-- Escape of one character inside a JSON string literal, following Python's
`json.dumps` with its default `ensure_ascii=True`: printable ASCII other than
quote and backslash is kept, the short escapes are used for the usual control
characters, all else becomes `\uXXXX` (a surrogate pair beyond the BMP). -/
def escChar (c : Char) : String :=
  if c = '"' then "\\\""
  else if c = '\\' then "\\\\"
  else if c = '\n' then "\\n"
  else if c = '\t' then "\\t"
  else if c = '\r' then "\\r"
  else if c.toNat = 8 then "\\b"
  else if c.toNat = 12 then "\\f"
  else if 32 ≤ c.toNat ∧ c.toNat ≤ 126 then String.singleton c
  else if c.toNat < 65536 then "\\u" ++ hex4 c.toNat
  else
    "\\u" ++ hex4 (55296 + (c.toNat - 65536) / 1024) ++
    "\\u" ++ hex4 (56320 + (c.toNat - 65536) % 1024)

/-- Body of a JSON string literal under `json.dumps`. -/
def escapeString (s : String) : String :=
  String.join (s.data.map escChar)

mutual

/-- Python's `json.dumps` with default arguments: separators `", "` and
`": "`, no indent (main.py line 76 serializes `chatbot_db` this way). -/
def Json.dumps : Json → String
  | .null => "null"
  | .bool true => "true"
  | .bool false => "false"
  | .num n => toString n
  | .str s => "\"" ++ escapeString s ++ "\""
  | .arr xs => "[" ++ dumpsElems xs ++ "]"
  | .obj kvs => "\x7b" ++ dumpsMembers kvs ++ "\x7d"

/-- Comma-separated array elements. -/
def dumpsElems : List Json → String
  | [] => ""
  | [x] => Json.dumps x
  | x :: y :: rest => Json.dumps x ++ ", " ++ dumpsElems (y :: rest)

/-- Comma-separated object members, each `"key": value`. -/
def dumpsMembers : List (String × Json) → String
  | [] => ""
  | [(k, v)] => "\"" ++ escapeString k ++ "\": " ++ Json.dumps v
  | (k, v) :: m :: rest =>
      "\"" ++ escapeString k ++ "\": " ++ Json.dumps v ++ ", " ++ dumpsMembers (m :: rest)

end

/-! ## DataStore: `chatbot_db` and `load_data_into_cache` (main.py 27-45) -/

/-- The initial value of `chatbot_db` (main.py line 27): an empty dictionary. -/
def empty_chatbot_db : Json := Json.obj []

/-- The outcome of opening and JSON-decoding `rooms.json`:
`missing` is Python's `FileNotFoundError`, `malformed` is `json.JSONDecodeError`,
`content doc` is a successful `json.load` returning `doc`. -/
inductive FileReadResult where
  | missing
  | malformed
  | content (doc : Json)

/-- How `load_data_into_cache` finished: normally (with the two diagnostic
counts it prints), by catching a read/decode error (printing a warning), or by
an exception no `except` clause catches, which propagates to the caller. -/
inductive LoadStatus where
  | success (room_count room_type_count : Nat)
  | warning (msg : String)
  | raised (msg : String)

/-- Python `d.get(k, default)`: a `dict` returns the key's value or the
default; any non-`dict` value has no `.get` attribute, so the attribute
access raises `AttributeError`. -/
def pyDictGet (j : Json) (k : String) (dflt : Json) : Except String Json :=
  match j with
  | .obj kvs => .ok ((kvs.lookup k).getD dflt)
  | _ => .error "AttributeError"

/-- Python `len(x)`: defined for `str`, `list` and `dict`; `len` of `None`,
a bool or a number raises `TypeError`. -/
def pyLen : Json → Except String Nat
  | .str s => .ok s.length
  | .arr xs => .ok xs.length
  | .obj kvs => .ok kvs.length
  | _ => .error "TypeError"

/-- `load_data_into_cache` (main.py 30-45) as a function of the file outcome
and the prior value of `chatbot_db`, returning the new value of `chatbot_db`
and how the call finished.  The whole body sits in one `try`: the assignment
`chatbot_db = json.load(f)` (line 36) precedes the diagnostic
`len(chatbot_db.get("Rooms", []))` / `len(chatbot_db.get("RoomTypes", []))`
(lines 39-40), whose `AttributeError`/`TypeError` the two `except` clauses
(`FileNotFoundError`, `json.JSONDecodeError`) do not catch. -/
def load_data_into_cache (file : FileReadResult) (chatbot_db : Json) :
    Json × LoadStatus :=
  match file with
  | .missing =>
      (chatbot_db,
       .warning "WARNING: rooms.json not found. The chatbot will have no room data.")
  | .malformed =>
      (chatbot_db,
       .warning "WARNING: Could not decode rooms.json. Check for syntax errors.")
  | .content doc =>
      match pyDictGet doc "Rooms" (Json.arr []) with
      | .error e => (doc, .raised e)
      | .ok rooms =>
          match pyLen rooms with
          | .error e => (doc, .raised e)
          | .ok room_count =>
              match pyDictGet doc "RoomTypes" (Json.arr []) with
              | .error e => (doc, .raised e)
              | .ok room_types =>
                  match pyLen room_types with
                  | .error e => (doc, .raised e)
                  | .ok room_type_count => (doc, .success room_count room_type_count)

/-- Whether Python's `len` applies to this value (string, list or dict). -/
def lenable : Json → Bool
  | .str _ => true
  | .arr _ => true
  | .obj _ => true
  | _ => false

/-- Whether the diagnostic step of `load_data_into_cache` completes without an
exception for a freshly parsed `doc`: the top level must be a dictionary and
each of "Rooms" and "RoomTypes", when present, must support `len`
(absent keys fall back to the empty-list default, which does). -/
def diagnosticsSafe (doc : Json) : Bool :=
  match doc with
  | .obj kvs =>
      lenable ((kvs.lookup "Rooms").getD (Json.arr [])) &&
      lenable ((kvs.lookup "RoomTypes").getD (Json.arr []))
  | _ => false

/-! ## Completion call: `get_ai_response` (main.py 69-106) -/

/-- main.py line 20. -/
def NLU_API_URL : String := "https://api.groq.com/openai/v1/chat/completions"

/-- The model identifier sent in the payload (main.py line 79). -/
def MODEL_ID : String := "meta-llama/llama-4-scout-17b-16e-instruct"

/-- The fallback returned on an HTTP error status (main.py line 103). -/
def httpErrorReply : String :=
  "Sorry, I received an error from the AI service. Please check the terminal for details."

/-- The fallback returned on any other failure (main.py line 106). -/
def unexpectedErrorReply : String :=
  "An unexpected error occurred. Please check the server logs."

/-- The fixed part of the system message's f-string (main.py 83-86), up to and
including "Current hotel data: "; the serialized store is interpolated right
after it, at the very end.  The newlines and 16-space indentation are those of
the triple-quoted literal. -/
def systemInstruction : String :=
  "You are a helpful hotel booking assistant for a hotel named 'Bookify'.\n                Your only job is to answer questions based on the user's query and the provided JSON data about rooms and room types.\n                Keep your answers concise and friendly.\n                Current hotel data: "

/-- The request headers (main.py 70-73).  `NLU_API_KEY = os.getenv("GROQ_API_KEY")`
(line 22) is `None` when the variable is absent — nothing validates it — and
the f-string `f"Bearer {NLU_API_KEY}"` then renders it as the text "None". -/
def build_headers (NLU_API_KEY : Option String) : List (String × String) :=
  [("Authorization", "Bearer " ++ (match NLU_API_KEY with
                                   | some k => k
                                   | none => "None")),
   ("Content-Type", "application/json")]

/-- The JSON payload (main.py 76-93): the fixed model id and exactly two
messages, the system one ending in `json.dumps chatbot_db` and the user one
carrying `user_text` verbatim. -/
def build_payload (chatbot_db : Json) (user_text : String) : Json :=
  Json.obj
    [("model", Json.str MODEL_ID),
     ("messages", Json.arr
       [Json.obj [("role", Json.str "system"),
                  ("content", Json.str (systemInstruction ++ Json.dumps chatbot_db))],
        Json.obj [("role", Json.str "user"),
                  ("content", Json.str user_text)]])]

/-- The outbound POST as `client.post(NLU_API_URL, json=payload, headers=headers,
timeout=30.0)` performs it (main.py line 97); the timeout is in seconds. -/
structure OutboundRequest where
  url : String
  headers : List (String × String)
  payload : Json
  timeoutSeconds : Nat

/-- Assembles the outbound request from the key, the store and the user text. -/
def build_request (NLU_API_KEY : Option String) (chatbot_db : Json)
    (user_text : String) : OutboundRequest :=
  ⟨NLU_API_URL, build_headers NLU_API_KEY, build_payload chatbot_db user_text, 30⟩

/-- The environment's answer to the outbound call: an HTTP response with a
status code and a body (`none` when `response.json()` cannot decode it), or a
transport failure (connect error, timeout, ...) raised by `httpx` before any
response arrives. -/
inductive CallOutcome where
  | response (status : Nat) (body : Option Json)
  | transportError (msg : String)

/-- httpx's success range: `response.raise_for_status()` (main.py line 98)
raises `HTTPStatusError` for every status outside 200-299. -/
def is_success (status : Nat) : Bool :=
  decide (200 ≤ status ∧ status ≤ 299)

/-- Python subscripting `j[k]` with a string key: only a `dict` can succeed
(`KeyError` when absent); on anything else it raises (`TypeError`). -/
def pySubscriptStr (j : Json) (k : String) : Option Json :=
  match j with
  | .obj kvs => kvs.lookup k
  | _ => none

/-- Python subscripting `j[i]` with a non-negative integer: a list indexes,
a string yields the one-character string (`IndexError` out of range); on
anything else it raises. -/
def pySubscriptNat (j : Json) (i : Nat) : Option Json :=
  match j with
  | .arr xs => xs[i]?
  | .str s => (s.data[i]?).map (fun c => Json.str (String.singleton c))
  | _ => none

/-- `data['choices'][0]['message']['content']` (main.py line 100); `none` when
any step raises, which the blanket `except Exception` then catches. -/
def extract_reply (data : Json) : Option Json :=
  (((pySubscriptStr data "choices").bind (fun j => pySubscriptNat j 0)).bind
      (fun j => pySubscriptStr j "message")).bind
    (fun j => pySubscriptStr j "content")

/-- `get_ai_response` (main.py 69-106): builds the request, performs the call
(whose outcome is the `outcome` argument) and produces the Python value the
function returns — the extracted reply on success, otherwise one of the two
fallback strings.  `raise_for_status` runs before `response.json()`, so an
error status yields `httpErrorReply` whatever the body; every other failure
lands in `except Exception` and yields `unexpectedErrorReply`.  The extracted
`content` is returned as-is, whatever JSON value it is. -/
def get_ai_response (NLU_API_KEY : Option String) (chatbot_db : Json)
    (user_text : String) (outcome : CallOutcome) : OutboundRequest × Json :=
  let request := build_request NLU_API_KEY chatbot_db user_text
  match outcome with
  | .transportError _ => (request, Json.str unexpectedErrorReply)
  | .response status body =>
      if is_success status then
        match body with
        | none => (request, Json.str unexpectedErrorReply)
        | some data =>
            match extract_reply data with
            | some reply => (request, reply)
            | none => (request, Json.str unexpectedErrorReply)
      else (request, Json.str httpErrorReply)

/-! ## The `/chat` endpoint (main.py 61-66, 109-112) -/

/-- The response model `BotReply` (main.py 65-66): one string field. -/
structure BotReply where
  reply : String

/-- Pydantic validation of `BotReply(reply=response_text)` (main.py 112): the
`reply: str` field accepts a string; a non-string value (in particular the JSON
`null`, i.e. Python `None`) raises a `ValidationError`, which nothing in the
endpoint catches. -/
def mkBotReply : Json → Except String BotReply
  | .str s => .ok ⟨s⟩
  | _ => .error "ValidationError"

/-- `handle_chat_message` (main.py 109-112): awaits `get_ai_response` and wraps
the result in a `BotReply`. -/
def handle_chat_message (NLU_API_KEY : Option String) (chatbot_db : Json)
    (text : String) (outcome : CallOutcome) : Except String BotReply :=
  mkBotReply (get_ai_response NLU_API_KEY chatbot_db text outcome).2

/-- One `/chat` request as a transition on the server state (`chatbot_db`):
neither `get_ai_response` nor `handle_chat_message` contains an assignment to
`chatbot_db` (no `global` statement binds it there), so the state component is
passed through unchanged and only the reply is produced. -/
def chat_step (NLU_API_KEY : Option String) (chatbot_db : Json) (text : String)
    (outcome : CallOutcome) : Json × Except String BotReply :=
  (chatbot_db, handle_chat_message NLU_API_KEY chatbot_db text outcome)

/-! ## Accessors used to state the payload-shape claims -/

/-- The `messages` field of a payload, when it is an array. -/
def messagesOf (payload : Json) : List Json :=
  match pySubscriptStr payload "messages" with
  | some (.arr xs) => xs
  | _ => []

/-- The `role` field of a message object. -/
def roleOf (m : Json) : Option Json := pySubscriptStr m "role"

/-- The `content` field of a message object. -/
def contentOf (m : Json) : Option Json := pySubscriptStr m "content"

/-- `serialized` occurs contiguously and in full inside `content`. -/
def containsSerialized (content serialized : String) : Prop :=
  ∃ pre suf, content = pre ++ serialized ++ suf

/-- The success body of the spec's concrete example. -/
def room12Body : Json :=
  Json.obj [("choices", Json.arr [Json.obj [("message",
    Json.obj [("content", Json.str "Room 12 is available.")])]])]

/-- A success body whose extracted `content` is JSON `null` (Python `None`). -/
def nullContentBody : Json :=
  Json.obj [("choices", Json.arr [Json.obj [("message",
    Json.obj [("content", Json.null)])]])]

/-! ## Helper lemmas -/

/-- Whatever the call's outcome, the request `get_ai_response` sends is the one
`build_request` assembles from the key, the store and the user text. -/
theorem get_ai_response_fst (key : Option String) (db : Json) (text : String)
    (outcome : CallOutcome) :
    (get_ai_response key db text outcome).1 = build_request key db text := by
  cases outcome with
  | transportError m => rfl
  | response status body =>
      cases h : is_success status with
      | false => simp [get_ai_response, h]
      | true =>
          cases body with
          | none => simp [get_ai_response, h]
          | some data => cases he : extract_reply data <;> simp [get_ai_response, h, he]

/-- `len` succeeds exactly on the values `lenable` accepts. -/
theorem pyLen_ok_iff (j : Json) : (∃ n, pyLen j = .ok n) ↔ lenable j = true := by
  cases j <;> simp [pyLen, lenable]

/-- `len` raises `TypeError` on every other value. -/
theorem pyLen_error_of (j : Json) (h : lenable j = false) :
    pyLen j = .error "TypeError" := by
  cases j <;> simp_all [pyLen, lenable]

/-! ## The claims -/

/-- C1: for every user text and every loaded configuration document, the
outbound completion request has exactly two messages, in order: a system-role
entry whose content contains the whole serialized document, then a user-role
entry whose content is the user text verbatim. -/
theorem outbound_messages_two_entries (key : Option String) (db : Json)
    (text : String) (outcome : CallOutcome) :
    ∃ sys usr : Json,
      messagesOf (get_ai_response key db text outcome).1.payload = [sys, usr] ∧
      roleOf sys = some (Json.str "system") ∧
      (∃ c, contentOf sys = some (Json.str c) ∧
            containsSerialized c (Json.dumps db)) ∧
      roleOf usr = some (Json.str "user") ∧
      contentOf usr = some (Json.str text) := by
  rw [get_ai_response_fst]
  refine ⟨_, _, rfl, rfl,
    ⟨systemInstruction ++ Json.dumps db, rfl, systemInstruction, "", ?_⟩, rfl, rfl⟩
  exact (String.append_empty _).symm

/-- C2: on a success status with a parseable body, the handler returns the
extracted `choices[0].message.content` when the path is present and the
"any other failure" fallback when it is absent; on the spec's concrete body,
`handle` returns exactly "Room 12 is available.". -/
theorem success_returns_extracted_content (key : Option String) (db : Json)
    (text : String) (status : Nat) (data : Json) (hs : is_success status = true) :
    (get_ai_response key db text (.response status (some data))).2
      = (extract_reply data).getD (Json.str unexpectedErrorReply) ∧
    handle_chat_message key db "Is room 12 free?" (.response 200 (some room12Body))
      = .ok ⟨"Room 12 is available."⟩ := by
  constructor
  · cases he : extract_reply data <;> simp [get_ai_response, hs, he]
  · rfl

/-- Witness for C2 at status 200 and the spec's concrete body. -/
theorem success_returns_extracted_content_inst :
    (get_ai_response none empty_chatbot_db "Is room 12 free?"
        (.response 200 (some room12Body))).2
      = (extract_reply room12Body).getD (Json.str unexpectedErrorReply) ∧
    handle_chat_message none empty_chatbot_db "Is room 12 free?"
        (.response 200 (some room12Body)) = .ok ⟨"Room 12 is available."⟩ :=
  success_returns_extracted_content none empty_chatbot_db "Is room 12 free?"
    200 room12Body rfl

/-- C3: on an HTTP status outside the success range the handler returns exactly
the AI-service error fallback, and the endpoint wraps it without raising. -/
theorem http_error_status_fallback (key : Option String) (db : Json)
    (text : String) (status : Nat) (body : Option Json)
    (h : is_success status = false) :
    (get_ai_response key db text (.response status body)).2
      = Json.str httpErrorReply ∧
    handle_chat_message key db text (.response status body)
      = .ok ⟨httpErrorReply⟩ := by
  have h1 : (get_ai_response key db text (.response status body)).2
      = Json.str httpErrorReply := by
    simp [get_ai_response, h]
  exact ⟨h1, by unfold handle_chat_message; rw [h1]; rfl⟩

/-- Witness for C3 at HTTP 500. -/
theorem http_error_status_fallback_inst :
    (get_ai_response none empty_chatbot_db "hi" (.response 500 none)).2
      = Json.str httpErrorReply ∧
    handle_chat_message none empty_chatbot_db "hi" (.response 500 none)
      = .ok ⟨httpErrorReply⟩ :=
  http_error_status_fallback none empty_chatbot_db "hi" 500 none rfl

/-- C4: every failure other than an HTTP error status — transport error,
undecodable body, or a body missing `choices[0].message.content` — makes the
handler return exactly the unexpected-error fallback, without raising. -/
theorem other_failures_fallback (key : Option String) (db : Json) (text : String)
    (msg : String) (status : Nat) (data : Json)
    (hs : is_success status = true) (he : extract_reply data = none) :
    (get_ai_response key db text (.transportError msg)).2
      = Json.str unexpectedErrorReply ∧
    (get_ai_response key db text (.response status none)).2
      = Json.str unexpectedErrorReply ∧
    (get_ai_response key db text (.response status (some data))).2
      = Json.str unexpectedErrorReply ∧
    handle_chat_message key db text (.transportError msg)
      = .ok ⟨unexpectedErrorReply⟩ ∧
    handle_chat_message key db text (.response status (some data))
      = .ok ⟨unexpectedErrorReply⟩ := by
  have h2 : (get_ai_response key db text (.response status (some data))).2
      = Json.str unexpectedErrorReply := by
    simp [get_ai_response, hs, he]
  refine ⟨rfl, ?_, h2, rfl, ?_⟩
  · simp [get_ai_response, hs]
  · unfold handle_chat_message; rw [h2]; rfl

/-- Witness for C4 at a timeout and at a success response whose body is an
empty object (no `choices` path). -/
theorem other_failures_fallback_inst :
    (get_ai_response none empty_chatbot_db "hi" (.transportError "timeout")).2
      = Json.str unexpectedErrorReply ∧
    (get_ai_response none empty_chatbot_db "hi" (.response 200 none)).2
      = Json.str unexpectedErrorReply ∧
    (get_ai_response none empty_chatbot_db "hi" (.response 200 (some (Json.obj [])))).2
      = Json.str unexpectedErrorReply ∧
    handle_chat_message none empty_chatbot_db "hi" (.transportError "timeout")
      = .ok ⟨unexpectedErrorReply⟩ ∧
    handle_chat_message none empty_chatbot_db "hi" (.response 200 (some (Json.obj [])))
      = .ok ⟨unexpectedErrorReply⟩ :=
  other_failures_fallback none empty_chatbot_db "hi" "timeout" 200 (Json.obj [])
    rfl rfl

/-- C5 counterexample: on a success body whose `choices[0].message.content` is
JSON `null`, `get_ai_response` returns `null` — not a string — and the
endpoint's `BotReply(reply=None)` raises a validation error to its caller. -/
theorem handler_string_claim_refuted :
    (get_ai_response none empty_chatbot_db "hi"
        (.response 200 (some nullContentBody))).2 = Json.null ∧
    handle_chat_message none empty_chatbot_db "hi"
        (.response 200 (some nullContentBody)) = .error "ValidationError" :=
  ⟨rfl, rfl⟩

/-- C5 amended: for every user text and outcome, `get_ai_response` completes
and either returns a string which the endpoint wraps without raising, or the
outcome is a success whose extracted content is that (non-string or string)
value and, when no string branch applies, the endpoint's response-model
validation raises. -/
theorem handler_result_characterization (key : Option String) (db : Json)
    (text : String) (outcome : CallOutcome) :
    (∃ s, (get_ai_response key db text outcome).2 = Json.str s ∧
          handle_chat_message key db text outcome = .ok ⟨s⟩) ∨
    (∃ status data,
        outcome = .response status (some data) ∧ is_success status = true ∧
        extract_reply data = some ((get_ai_response key db text outcome).2) ∧
        handle_chat_message key db text outcome = .error "ValidationError") := by
  cases outcome with
  | transportError m => exact Or.inl ⟨unexpectedErrorReply, rfl, rfl⟩
  | response status body =>
      cases h : is_success status with
      | false =>
          have h1 : (get_ai_response key db text (.response status body)).2
              = Json.str httpErrorReply := by simp [get_ai_response, h]
          exact Or.inl ⟨httpErrorReply, h1, by unfold handle_chat_message; rw [h1]; rfl⟩
      | true =>
          cases body with
          | none =>
              have h1 : (get_ai_response key db text (.response status none)).2
                  = Json.str unexpectedErrorReply := by simp [get_ai_response, h]
              exact Or.inl ⟨unexpectedErrorReply, h1,
                by unfold handle_chat_message; rw [h1]; rfl⟩
          | some data =>
              cases he : extract_reply data with
              | none =>
                  have h1 : (get_ai_response key db text
                      (.response status (some data))).2
                      = Json.str unexpectedErrorReply := by
                    simp [get_ai_response, h, he]
                  exact Or.inl ⟨unexpectedErrorReply, h1,
                    by unfold handle_chat_message; rw [h1]; rfl⟩
              | some r =>
                  have h2 : (get_ai_response key db text
                      (.response status (some data))).2 = r := by
                    simp [get_ai_response, h, he]
                  by_cases hstr : ∃ s, r = Json.str s
                  · obtain ⟨s, rfl⟩ := hstr
                    exact Or.inl ⟨s, h2, by unfold handle_chat_message; rw [h2]; rfl⟩
                  · have h3 : mkBotReply r = .error "ValidationError" := by
                      cases r with
                      | str s => exact absurd ⟨s, rfl⟩ hstr
                      | null => rfl
                      | bool b => rfl
                      | num n => rfl
                      | arr xs => rfl
                      | obj kvs => rfl
                    refine Or.inr ⟨status, data, rfl, h, by rw [h2]; exact he, ?_⟩
                    unfold handle_chat_message; rw [h2]; exact h3

/-- C6: when the configuration file is missing or holds malformed JSON, the
load leaves the store at its empty default, records a warning, and its two
`except` clauses keep any exception from propagating. -/
theorem startup_failure_leaves_empty_store :
    load_data_into_cache .missing empty_chatbot_db
      = (empty_chatbot_db,
         .warning "WARNING: rooms.json not found. The chatbot will have no room data.") ∧
    load_data_into_cache .malformed empty_chatbot_db
      = (empty_chatbot_db,
         .warning "WARNING: Could not decode rooms.json. Check for syntax errors.") :=
  ⟨rfl, rfl⟩

/-- C7 counterexample: a syntactically valid file whose top level is a JSON
array makes the diagnostic `chatbot_db.get("Rooms", [])` raise
`AttributeError`, which neither `except` clause catches, so the load does not
complete without raising. -/
theorem load_raises_on_array_root :
    load_data_into_cache (.content (Json.arr [])) empty_chatbot_db
      = (Json.arr [], .raised "AttributeError") := rfl

/-- C7 amended: for every valid JSON document the single assignment does
replace the store, and absent diagnostic keys count as zero; but the load
completes without raising only when the top level is an object whose "Rooms"
and "RoomTypes" values, when present, support `len` — otherwise the diagnostic
step raises (after the store was already replaced). -/
theorem load_assigns_then_diagnoses (doc prior : Json)
    (kvs : List (String × Json))
    (h1 : kvs.lookup "Rooms" = none) (h2 : kvs.lookup "RoomTypes" = none) :
    (load_data_into_cache (.content doc) prior).1 = doc ∧
    (diagnosticsSafe doc = true →
      ∃ rc tc, (load_data_into_cache (.content doc) prior).2 = .success rc tc) ∧
    (diagnosticsSafe doc = false →
      ∃ e, (load_data_into_cache (.content doc) prior).2 = .raised e) ∧
    (load_data_into_cache (.content (Json.obj kvs)) prior).2 = .success 0 0 := by
  refine ⟨?_, ?_, ?_, ?_⟩
  · cases doc with
    | obj kvs' =>
        cases hr : pyLen ((kvs'.lookup "Rooms").getD (Json.arr [])) with
        | error e => simp [load_data_into_cache, pyDictGet, hr]
        | ok rc =>
            cases ht : pyLen ((kvs'.lookup "RoomTypes").getD (Json.arr [])) with
            | error e => simp [load_data_into_cache, pyDictGet, hr, ht]
            | ok tc => simp [load_data_into_cache, pyDictGet, hr, ht]
    | null => rfl
    | bool b => rfl
    | num n => rfl
    | str s => rfl
    | arr xs => rfl
  · intro hsafe
    cases doc with
    | obj kvs' =>
        simp only [diagnosticsSafe, Bool.and_eq_true] at hsafe
        obtain ⟨hr, ht⟩ := hsafe
        obtain ⟨rc, hrc⟩ := (pyLen_ok_iff _).mpr hr
        obtain ⟨tc, htc⟩ := (pyLen_ok_iff _).mpr ht
        exact ⟨rc, tc, by simp [load_data_into_cache, pyDictGet, hrc, htc]⟩
    | null => simp [diagnosticsSafe] at hsafe
    | bool b => simp [diagnosticsSafe] at hsafe
    | num n => simp [diagnosticsSafe] at hsafe
    | str s => simp [diagnosticsSafe] at hsafe
    | arr xs => simp [diagnosticsSafe] at hsafe
  · intro hsafe
    cases doc with
    | obj kvs' =>
        cases hr : lenable ((kvs'.lookup "Rooms").getD (Json.arr [])) with
        | false =>
            exact ⟨"TypeError",
              by simp [load_data_into_cache, pyDictGet, pyLen_error_of _ hr]⟩
        | true =>
            have ht : lenable ((kvs'.lookup "RoomTypes").getD (Json.arr []))
                = false := by
              simp only [diagnosticsSafe, hr, Bool.true_and] at hsafe
              exact hsafe
            obtain ⟨rc, hrc⟩ := (pyLen_ok_iff _).mpr hr
            exact ⟨"TypeError",
              by simp [load_data_into_cache, pyDictGet, hrc, pyLen_error_of _ ht]⟩
    | null => exact ⟨"AttributeError", rfl⟩
    | bool b => exact ⟨"AttributeError", rfl⟩
    | num n => exact ⟨"AttributeError", rfl⟩
    | str s => exact ⟨"AttributeError", rfl⟩
    | arr xs => exact ⟨"AttributeError", rfl⟩
  · simp [load_data_into_cache, pyDictGet, h1, h2, pyLen]

/-- Witness for C7 at a one-key object and the empty object. -/
theorem load_assigns_then_diagnoses_inst :
    (load_data_into_cache (.content (Json.obj [("Rooms", Json.arr [])]))
        Json.null).1 = Json.obj [("Rooms", Json.arr [])] ∧
    (diagnosticsSafe (Json.obj [("Rooms", Json.arr [])]) = true →
      ∃ rc tc,
        (load_data_into_cache (.content (Json.obj [("Rooms", Json.arr [])]))
          Json.null).2 = .success rc tc) ∧
    (diagnosticsSafe (Json.obj [("Rooms", Json.arr [])]) = false →
      ∃ e,
        (load_data_into_cache (.content (Json.obj [("Rooms", Json.arr [])]))
          Json.null).2 = .raised e) ∧
    (load_data_into_cache (.content (Json.obj [])) Json.null).2
      = .success 0 0 :=
  load_assigns_then_diagnoses (Json.obj [("Rooms", Json.arr [])]) Json.null []
    rfl rfl

/-- C8 counterexample: with the API key absent, an authentication failure — an
HTTP error status such as 401 — is routed by `raise_for_status` to the
AI-service fallback, which differs from the unexpected-error fallback the
claim names. -/
theorem missing_key_fallback_claim_refuted :
    (get_ai_response none empty_chatbot_db "hi"
        (.response 401 (some (Json.obj [])))).2 = Json.str httpErrorReply ∧
    httpErrorReply ≠ unexpectedErrorReply := by
  refine ⟨rfl, ?_⟩
  simp [httpErrorReply, unexpectedErrorReply]

/-- C8 amended: an absent key is not validated — the call is still sent, with
the literal header "Bearer None" — and the resulting authentication failure
(an HTTP error status) surfaces as the AI-service error fallback, without
raising. -/
theorem missing_key_auth_failure_routing (db : Json) (text : String)
    (status : Nat) (body : Option Json) (h : is_success status = false) :
    (get_ai_response none db text (.response status body)).1.headers
      = [("Authorization", "Bearer None"), ("Content-Type", "application/json")] ∧
    (get_ai_response none db text (.response status body)).2
      = Json.str httpErrorReply ∧
    handle_chat_message none db text (.response status body)
      = .ok ⟨httpErrorReply⟩ := by
  have h2 : (get_ai_response none db text (.response status body)).2
      = Json.str httpErrorReply := by
    simp [get_ai_response, h]
  refine ⟨?_, h2, ?_⟩
  · rw [get_ai_response_fst]; rfl
  · unfold handle_chat_message; rw [h2]; rfl

/-- Witness for C8 at HTTP 401 with an empty response body. -/
theorem missing_key_auth_failure_routing_inst :
    (get_ai_response none empty_chatbot_db "hi"
        (.response 401 (some (Json.obj [])))).1.headers
      = [("Authorization", "Bearer None"), ("Content-Type", "application/json")] ∧
    (get_ai_response none empty_chatbot_db "hi"
        (.response 401 (some (Json.obj [])))).2 = Json.str httpErrorReply ∧
    handle_chat_message none empty_chatbot_db "hi"
        (.response 401 (some (Json.obj []))) = .ok ⟨httpErrorReply⟩ :=
  missing_key_auth_failure_routing empty_chatbot_db "hi" 401
    (some (Json.obj [])) rfl

/-- C9: handling a chat request leaves the in-memory store exactly as it was,
whatever the user text and the outbound call's outcome. -/
theorem chat_request_preserves_store (key : Option String) (st : Json)
    (text : String) (outcome : CallOutcome) :
    (chat_step key st text outcome).1 = st := rfl

/-- C10: a failed load — missing file or JSON decode error — leaves the store
at whatever value it held before the call, for any prior value. -/
theorem failed_load_preserves_store (prior : Json) :
    (load_data_into_cache .missing prior).1 = prior ∧
    (load_data_into_cache .malformed prior).1 = prior :=
  ⟨rfl, rfl⟩

